import Mathlib

/-!
Verification of the browser-universal provider bridge.

This file gives a shallow embedding of the provider module: the JavaScript
`trim` builtin is modelled over `List Char`, a DOM is modelled as a map from
CSS-selector strings to the ordered list of matching elements, regular
expressions that are case-insensitive literal tests are modelled as
case-insensitive substring tests, and every fallible effect of the pipeline
(the CDP connection, clicks, fills, the two wait phases) is modelled as an
`Except String` outcome supplied by the environment.  The pure logic —
prompt extraction, selector merging, platform detection, completion
detection, response extraction, message construction, and the event/effect
trace of `runBridge` — is transcribed from the source.
-/

/-- Model of the JavaScript `String.prototype.trim` over a character list:
drop whitespace from the front, then from the back. -/
def trimList (l : List Char) : List Char :=
  ((l.dropWhile Char.isWhitespace).reverse.dropWhile Char.isWhitespace).reverse

/-- Model of the JavaScript `text.trim()` builtin used throughout the module. -/
def jsTrim (s : String) : String :=
  String.mk (trimList s.data)

/-- Boolean test that `pat` is a prefix of `s` (character lists). -/
def listPrefixOf : List Char → List Char → Bool
  | [], _ => true
  | _ :: _, [] => false
  | a :: as, b :: bs => a == b && listPrefixOf as bs

/-- Boolean test that `pat` occurs as a contiguous run inside `s`. -/
def listInfixOf (pat : List Char) : List Char → Bool
  | [] => listPrefixOf pat []
  | c :: rest => listPrefixOf pat (c :: rest) || listInfixOf pat rest

/-- ASCII lower-casing of one character, modelling the case folding of the
`i` regex flag on the module's ASCII-only patterns. -/
def charLower (c : Char) : Char :=
  if c.isUpper then Char.ofNat (c.toNat + 32) else c

/-- ASCII lower-casing of a character list. -/
def lowerChars (l : List Char) : List Char :=
  l.map charLower

/-- Model of `regex.test(s)` for the module's URL-hint regexes, which are all
case-insensitive literal patterns (every `.` in them is escaped): a
case-insensitive substring test. -/
def hintTest (pat s : String) : Bool :=
  listInfixOf (lowerChars pat.data) (lowerChars s.data)

/-- Accumulator-based duplicate removal keeping first occurrences, the
semantics of `Array.from(new Set(combined))` in `mergeSelectors`. -/
def dedupAux : List String → List String → List String
  | [], _ => []
  | x :: xs, seen => if x ∈ seen then dedupAux xs seen else x :: dedupAux xs (x :: seen)

/-- Duplicate removal keeping the first occurrence of each string. -/
def dedupFirst (l : List String) : List String :=
  dedupAux l []

/-- Transcription of `mergeSelectors(base, specific)` from the source: if the override list is
missing or empty return the base list unchanged, otherwise concatenate the
override list in front of the base list and remove exact duplicates keeping
first occurrences. -/
def mergeSelectors (base : List String) (specific : Option (List String)) : List String :=
  match specific with
  | none => base
  | some s => if s = [] then base else dedupFirst (s ++ base)

/-- One DOM element, as far as the module's in-page predicates inspect it:
its text content, its computed display and visibility styles, and whether it
has a laid-out box (non-null `offsetParent`). -/
structure Elem where
  textContent : String
  display : String := "block"
  visibility : String := "visible"
  hasOffsetParent : Bool := true
deriving DecidableEq, Repr

/-- A DOM, modelled as the map from a CSS selector string to the ordered
list of elements matching it (`document.querySelectorAll`); the first
element of the list is the `document.querySelector` result. -/
abbrev Dom : Type := String → List Elem

/-- The six selector categories of `SelectorStrategy` in the source. -/
structure SelectorStrategy where
  input : List String
  stop : List String
  send : List String
  assistant : List String
  modelLabel : List String
  domHints : List String
deriving DecidableEq, Repr

/-- A profile's partial selector overrides (`Partial<SelectorStrategy>`). -/
structure PartialSelectors where
  input : Option (List String) := none
  stop : Option (List String) := none
  send : Option (List String) := none
  assistant : Option (List String) := none
  modelLabel : Option (List String) := none
  domHints : Option (List String) := none
deriving DecidableEq, Repr

/-- The closed platform identity enumeration of the source. -/
inductive PlatformId where
  | chatgpt
  | claude
  | gemini
  | unknown
deriving DecidableEq, Repr

/-- A platform profile: identity, URL-hint patterns (each a case-insensitive
literal regex, kept here as its lowercase literal text), and selector
overrides. -/
structure PlatformProfile where
  id : PlatformId
  urlHints : List String
  selectors : PartialSelectors
deriving DecidableEq, Repr

/-- Transcription of `BASE_SELECTORS` from the source. -/
def BASE_SELECTORS : SelectorStrategy :=
  { input := ["#prompt-textarea",
              "textarea[placeholder*=\"Message\"]",
              "textarea[placeholder*=\"Send\"]",
              "textarea",
              "div[contenteditable=\"true\"][role=\"textbox\"]",
              "div[role=\"textbox\"][contenteditable=\"true\"]",
              "[contenteditable=\"true\"]"]
    stop := ["button[aria-label*=\"Stop\"]",
             "button[title*=\"Stop\"]",
             "button:has(svg[aria-label*=\"Stop\"])",
             "button:has(svg[data-icon*=\"stop\"])",
             "button:has(svg[data-testid*=\"stop\"])"]
    send := ["button[aria-label*=\"Send\"]",
             "button[title*=\"Send\"]",
             "button[data-testid*=\"send\"]",
             "button:has(svg[aria-label*=\"Send\"])",
             "button:has(svg[data-icon*=\"send\"])"]
    assistant := ["[data-message-author-role=\"assistant\"]", ".markdown", ".prose", "article"]
    modelLabel := ["button[data-testid*=\"model\"]",
                   "button[aria-haspopup=\"listbox\"]",
                   "[data-testid*=\"model\"]",
                   "div[role=\"button\"][aria-haspopup=\"listbox\"]"]
    domHints := [] }

/-- The `chatgpt` entry of `PLATFORM_PROFILES`. -/
def chatgptProfile : PlatformProfile :=
  { id := PlatformId.chatgpt
    urlHints := ["chatgpt.com", "chat.openai.com"]
    selectors :=
      { input := some ["textarea#prompt-textarea",
                       "div[contenteditable=\"true\"][data-testid=\"prompt-textarea\"]"]
        assistant := some ["[data-message-author-role=\"assistant\"]", ".markdown", ".prose"]
        stop := some ["button[aria-label*=\"Stop\"]", "button[data-testid*=\"stop\"]"]
        send := some ["button[aria-label*=\"Send\"]", "button[data-testid*=\"send\"]"]
        modelLabel := some ["button[data-testid=\"model-switcher\"]",
                            "button[aria-label*=\"Model\"]",
                            "button[aria-haspopup=\"listbox\"]"]
        domHints := some ["[data-message-author-role=\"assistant\"]", "#prompt-textarea"] } }

/-- The `claude` entry of `PLATFORM_PROFILES`. -/
def claudeProfile : PlatformProfile :=
  { id := PlatformId.claude
    urlHints := ["claude.ai"]
    selectors :=
      { input := some ["div[contenteditable=\"true\"][role=\"textbox\"]", "textarea"]
        assistant := some ["div[data-testid=\"chat-messages\"]", ".prose", "article"]
        stop := some ["button[aria-label*=\"Stop\"]", "button:has(svg[data-icon*=\"stop\"])"]
        send := some ["button[aria-label*=\"Send\"]", "button[type=\"submit\"]"]
        modelLabel := some ["button[data-testid*=\"model\"]",
                            "button[aria-label*=\"Model\"]",
                            "div[role=\"button\"][aria-haspopup=\"listbox\"]"]
        domHints := some ["[data-testid=\"chat-messages\"]", "button[aria-label*=\"Model\"]"] } }

/-- The `gemini` entry of `PLATFORM_PROFILES`. -/
def geminiProfile : PlatformProfile :=
  { id := PlatformId.gemini
    urlHints := ["gemini.google.com", "bard.google.com"]
    selectors :=
      { input := some ["textarea[aria-label*=\"Enter a prompt\"]", "textarea[placeholder*=\"Enter\"]"]
        assistant := some ["response-container", ".markdown", ".prose", "article"]
        stop := some ["button[aria-label*=\"Stop\"]", "button:has(svg[data-icon*=\"stop\"])"]
        send := some ["button[aria-label*=\"Send\"]", "button[aria-label*=\"Submit\"]",
                      "button[type=\"submit\"]"]
        modelLabel := some ["button[aria-label*=\"Model\"]",
                            "button[aria-haspopup=\"listbox\"]",
                            "[data-test-id*=\"model\"]"]
        domHints := some ["body:has([data-test-id*=\"gemini\"])", "div[aria-label*=\"Gemini\"]"] } }

/-- Transcription of `PLATFORM_PROFILES` from the source, in registry order. -/
def PLATFORM_PROFILES : List PlatformProfile :=
  [chatgptProfile, claudeProfile, geminiProfile]

/-- Transcription of `UNKNOWN_PROFILE` from the source: no URL hints, no overrides. -/
def UNKNOWN_PROFILE : PlatformProfile :=
  { id := PlatformId.unknown, urlHints := [], selectors := {} }

/-- Transcription of `resolveSelectorStrategy` from the source: merge each category of a
profile's overrides over the corresponding generic list. -/
def resolveSelectorStrategy (profile : PlatformProfile) : SelectorStrategy :=
  { input := mergeSelectors BASE_SELECTORS.input profile.selectors.input
    stop := mergeSelectors BASE_SELECTORS.stop profile.selectors.stop
    send := mergeSelectors BASE_SELECTORS.send profile.selectors.send
    assistant := mergeSelectors BASE_SELECTORS.assistant profile.selectors.assistant
    modelLabel := mergeSelectors BASE_SELECTORS.modelLabel profile.selectors.modelLabel
    domHints := mergeSelectors BASE_SELECTORS.domHints profile.selectors.domHints }

/-- The in-page `isVisible` helper of `waitForCompletion`: the first element
matching the selector exists, its computed display and visibility are not
hidden, and it has a laid-out box. -/
def domIsVisible (dom : Dom) (sel : String) : Bool :=
  match (dom sel).head? with
  | none => false
  | some el =>
    if el.display == "none" then false
    else if el.visibility == "hidden" then false
    else el.hasOffsetParent

/-- The polling predicate of `waitForCompletion` (completion Phase B): the
stop indicator is not visible, and the send control is visible or no send
selector matches anything in the DOM. -/
def waitForCompletionCheck (dom : Dom) (stopSelectors sendSelectors : List String) : Bool :=
  let stopVisible := stopSelectors.any (fun s => domIsVisible dom s)
  let sendVisible := sendSelectors.any (fun s => domIsVisible dom s)
  let sendKnown := sendSelectors.any (fun s => !(dom s).isEmpty)
  !stopVisible && (sendVisible || !sendKnown)

/-- Transcription of `extractLatestAssistantText` from the source: try selectors in order;
for each, scan its matches from last to first and return the first
non-empty trimmed text; fall through to the next selector otherwise. -/
def extractLatestAssistantText (dom : Dom) (selectors : List String) : String :=
  match selectors.findSome? (fun s =>
      (dom s).reverse.findSome? (fun e =>
        if jsTrim e.textContent = "" then none else some (jsTrim e.textContent))) with
  | some t => t
  | none => ""

/-- Transcription of `resolveModelLabel` from the source: for each selector in order, look at
the first matching element only; return its trimmed text if non-empty. -/
def resolveModelLabel (dom : Dom) (selectors : List String) : Option String :=
  selectors.findSome? (fun s =>
    match (dom s).head? with
    | none => none
    | some el => if jsTrim el.textContent = "" then none else some (jsTrim el.textContent))

/-- Transcription of `matchesDomHints` from the source: an empty hint list never matches;
otherwise some hint selector must match an element. -/
def matchesDomHints (dom : Dom) (selectors : List String) : Bool :=
  if selectors = [] then false
  else selectors.any (fun s => !(dom s).isEmpty)

/-- Transcription of `countAssistantBlocks` from the source: the match count of the first
selector that matches anything, else zero. -/
def countAssistantBlocks (dom : Dom) (selectors : List String) : Nat :=
  match selectors.find? (fun s => !(dom s).isEmpty) with
  | some s => (dom s).length
  | none => 0

/-- Transcription of `detectPlatform` from the source: URL/title candidates first, their
fingerprints; then all profiles' fingerprints; then the generic URL regex
plus URL hints; else the unknown profile. -/
def detectPlatform (dom : Dom) (url title : String) (urlRegex : String → Bool) :
    PlatformProfile :=
  let candidates := PLATFORM_PROFILES.filter (fun p =>
    p.urlHints.any (fun h => hintTest h url || hintTest h title))
  match candidates.find? (fun p => matchesDomHints dom (p.selectors.domHints.getD [])) with
  | some p => p
  | none =>
    match PLATFORM_PROFILES.find? (fun p => matchesDomHints dom (p.selectors.domHints.getD [])) with
    | some p => p
    | none =>
      if urlRegex url then
        match PLATFORM_PROFILES.find? (fun p => p.urlHints.any (fun h => hintTest h url)) with
        | some p => p
        | none => UNKNOWN_PROFILE
      else UNKNOWN_PROFILE

/-- One typed content part of a message (only the `type` tag and the text
payload are inspected by the module). -/
structure ContentItem where
  type : String
  text : String
deriving DecidableEq, Repr

/-- The content of a conversation turn: either a plain string or a list of
typed parts. -/
inductive MsgContent where
  | str (s : String)
  | parts (ps : List ContentItem)
deriving DecidableEq, Repr

/-- A role-tagged conversation turn. -/
structure ContextMessage where
  role : String
  content : MsgContent
deriving DecidableEq, Repr

/-- The conversation object handed to the bridge. -/
structure Context where
  messages : List ContextMessage
deriving DecidableEq, Repr

/-- The backwards scan of `extractLatestUserPrompt`, written over the
reversed message list: a user turn with string content returns its trimmed
text immediately; a user turn with part content returns the trimmed
newline-join of its text parts only when that is non-empty, otherwise the
scan continues with older messages. -/
def extractLoop : List ContextMessage → String
  | [] => ""
  | m :: rest =>
    if m.role ≠ "user" then extractLoop rest
    else
      match m.content with
      | MsgContent.str s => jsTrim s
      | MsgContent.parts ps =>
        let text := jsTrim (String.intercalate "\n"
          ((ps.filter (fun i => i.type == "text")).map (fun i => i.text)))
        if text ≠ "" then text else extractLoop rest

/-- Transcription of `extractLatestUserPrompt` from the source (the source iterates indices
downwards; here the list is reversed and scanned front to back). -/
def extractLatestUserPrompt (ctx : Context) : String :=
  extractLoop ctx.messages.reverse

/-- Zeroed cost record carried by every synthesized assistant message. -/
structure CostRecord where
  input : Nat
  output : Nat
  cacheRead : Nat
  cacheWrite : Nat
  total : Nat
deriving DecidableEq, Repr

/-- Zeroed usage record carried by every synthesized assistant message. -/
structure UsageRecord where
  input : Nat
  output : Nat
  cacheRead : Nat
  cacheWrite : Nat
  totalTokens : Nat
  cost : CostRecord
deriving DecidableEq, Repr

/-- The caller-supplied model descriptor (`Model<"browser-universal">`). -/
structure ModelRef where
  api : String
  provider : String
  id : String
deriving DecidableEq, Repr

/-- The assistant-message snapshot carried by stream events. -/
structure AssistantMessage where
  role : String
  content : List ContentItem
  api : String
  provider : String
  model : String
  usage : UsageRecord
  stopReason : String
  timestamp : Nat
deriving DecidableEq, Repr

/-- Transcription of `buildAssistantMessage` from the source.  `Date.now()` is passed in as
`now`.  The resolved model identifier is the trimmed detected label when it
is non-empty, else the configured model id. -/
def buildAssistantMessage (now : Nat) (text : String) (model : ModelRef)
    (detectedModel : Option String) (stopReason : String) : AssistantMessage :=
  let resolvedModel :=
    match detectedModel with
    | some d => if jsTrim d = "" then model.id else jsTrim d
    | none => model.id
  { role := "assistant"
    content := [{ type := "text", text := text }]
    api := model.api
    provider := model.provider
    model := resolvedModel
    usage := { input := 0, output := 0, cacheRead := 0, cacheWrite := 0, totalTokens := 0
               cost := { input := 0, output := 0, cacheRead := 0, cacheWrite := 0, total := 0 } }
    stopReason := stopReason
    timestamp := now }

/-- The event alphabet of the assistant-message event stream.  The source's
`start` / `text_start` / `text_delta` / `text_end` / `done` / `error`
pushes correspond to the spec's start / content-start / content-delta /
content-end / done / error events; `snapshot` is the `partial` field. -/
inductive StreamEvent where
  | start (snapshot : AssistantMessage)
  | text_start (contentIndex : Nat) (snapshot : AssistantMessage)
  | text_delta (contentIndex : Nat) (delta : String) (snapshot : AssistantMessage)
  | text_end (contentIndex : Nat) (content : String) (snapshot : AssistantMessage)
  | done (reason : String) (message : AssistantMessage)
  | error (reason : String) (errorMessage : AssistantMessage)
deriving DecidableEq, Repr

/-- Externally visible resource effects of one invocation: opening the CDP
connection (`chromium.connectOverCDP`) and releasing it (`browser.close()`). -/
inductive BridgeEffect where
  | connect
  | close
deriving DecidableEq, Repr

/-- One open page of the connected browser, together with the outcome of
every fallible per-page effect the pipeline performs on it.  `dom` is the
page's DOM as observed before prompt injection; `finalDom` is the DOM as
observed by response extraction after both wait phases. -/
structure PageM where
  closed : Bool
  url : String
  title : String
  focus : Option Bool
  dom : Dom
  inputProbe : String → Option Bool
  clickRes : Except String Unit
  isTextArea : Bool
  fillRes : Except String Unit
  fillEmptyRes : Except String Unit
  typeRes : Except String Unit
  pressRes : Except String Unit
  waitNewBlockRes : Except String Unit
  waitCompletionRes : Except String Unit
  finalDom : Dom

/-- The connected browser: the flattened list of pages of all its contexts. -/
structure BrowserM where
  pages : List PageM

/-- The environment of one `runBridge` invocation: the model descriptor and
conversation passed by the caller, the abort-signal state, the outcome of
the CDP connection attempt, the configured URL regex (as its `test`
function), and the clock value used for message timestamps. -/
structure BridgeEnv where
  model : ModelRef
  context : Context
  aborted : Bool
  connectRes : Except String BrowserM
  urlRegex : String → Bool
  now : Nat

/-- Transcription of `resolveFocusedPage` followed by `resolvePageByRegex` followed by
`pages[0]`, the tab-selection order of `runBridge`.  Closed pages and pages
whose focus probe throws are skipped by the first two steps. -/
def selectPage (urlRegex : String → Bool) (pages : List PageM) : Option PageM :=
  let focused := pages.find? (fun p => !p.closed && p.focus == some true)
  let matched := focused <|> pages.find? (fun p => !p.closed && urlRegex p.url)
  matched <|> pages.head?

/-- Transcription of `resolveInputLocator` from the source: try each input selector in order;
a probe that throws (`none`) or reports invisible is skipped; if none is
visible, fail with the input-not-found diagnostic. -/
def resolveInputLocator (probe : String → Option Bool) : List String → Except String String
  | [] => Except.error "Browser universal input not found. Update selectors or focus the input."
  | s :: rest =>
    match probe s with
    | some true => Except.ok s
    | _ => resolveInputLocator probe rest

/-- The selector strategy the bridge resolves for a page: platform detection
on the pre-injection DOM, then the override merge. -/
def pageStrategy (urlRegex : String → Bool) (page : PageM) : SelectorStrategy :=
  resolveSelectorStrategy (detectPlatform page.dom page.url page.title urlRegex)

/-- The per-page section of `runBridge`, from platform detection to response
extraction, as an `Except` pipeline: the first failing step's diagnostic is
the result.  On success it yields the scraped reply text and the
opportunistically scraped model label. -/
def pageAttempt (urlRegex : String → Bool) (page : PageM) :
    Except String (String × Option String) :=
  let strategy := pageStrategy urlRegex page
  let modelLabel := resolveModelLabel page.dom strategy.modelLabel
  let _initialCount := countAssistantBlocks page.dom strategy.assistant
  (resolveInputLocator page.inputProbe strategy.input).bind (fun _ =>
  page.clickRes.bind (fun _ =>
  (if page.isTextArea then page.fillRes
   else page.fillEmptyRes.bind (fun _ => page.typeRes)).bind (fun _ =>
  page.pressRes.bind (fun _ =>
  page.waitNewBlockRes.bind (fun _ =>
  page.waitCompletionRes.bind (fun _ =>
    let responseText := extractLatestAssistantText page.finalDom strategy.assistant
    if responseText = "" then Except.error "Browser universal: no assistant response found."
    else Except.ok (responseText, modelLabel)))))))

/-- The inner `try` block of `runBridge`: page enumeration, tab selection,
then the per-page pipeline. -/
def innerAttempt (urlRegex : String → Bool) (b : BrowserM) :
    Except String (String × Option String) :=
  if b.pages.isEmpty then Except.error "No open pages found in the connected Chrome instance."
  else
    match selectPage urlRegex b.pages with
    | none => Except.error "Unable to select an active tab for browser universal provider."
    | some page => pageAttempt urlRegex page

/-- The result of one invocation: the pushed event list in order, the
message passed to `stream.end`, and the resource effects in order. -/
structure BridgeResult where
  events : List StreamEvent
  endedWith : Option AssistantMessage
  effects : List BridgeEffect
deriving Repr

/-- The five success events pushed by `runBridge`, in order. -/
def successEvents (t : String) (m : AssistantMessage) : List StreamEvent :=
  [StreamEvent.start m,
   StreamEvent.text_start 0 m,
   StreamEvent.text_delta 0 t m,
   StreamEvent.text_end 0 t m,
   StreamEvent.done "stop" m]

/-- Transcription of `runBridge` from the source.  Empty prompt: a single error event before
any browser interaction.  Abort before connecting, a connection failure, or
any inner-pipeline failure: the thrown diagnostic is wrapped into a single
error event by the outermost catch.  The `finally` clause closes the
browser on both inner paths once the connection was established. -/
def runBridge (env : BridgeEnv) : BridgeResult :=
  let prompt := extractLatestUserPrompt env.context
  if prompt = "" then
    let e := buildAssistantMessage env.now "Browser universal: empty prompt." env.model none "error"
    { events := [StreamEvent.error "error" e], endedWith := some e, effects := [] }
  else if env.aborted then
    let e := buildAssistantMessage env.now
      "Browser universal error: Browser universal run aborted" env.model none "error"
    { events := [StreamEvent.error "error" e], endedWith := some e, effects := [] }
  else
    match env.connectRes with
    | Except.error msg =>
      let e := buildAssistantMessage env.now ("Browser universal error: " ++ msg)
        env.model none "error"
      { events := [StreamEvent.error "error" e], endedWith := some e
        effects := [BridgeEffect.connect] }
    | Except.ok b =>
      match innerAttempt env.urlRegex b with
      | Except.ok (t, label) =>
        let m := buildAssistantMessage env.now t env.model label "stop"
        { events := successEvents t m, endedWith := some m
          effects := [BridgeEffect.connect, BridgeEffect.close] }
      | Except.error msg =>
        let e := buildAssistantMessage env.now ("Browser universal error: " ++ msg)
          env.model none "error"
        { events := [StreamEvent.error "error" e], endedWith := some e
          effects := [BridgeEffect.connect, BridgeEffect.close] }

/-- Transcription of `DEFAULT_CDP_URL` from the source. -/
def DEFAULT_CDP_URL : String := "http://127.0.0.1:9222"

/-- Transcription of `DEFAULT_TIMEOUT_MS` from the source. -/
def DEFAULT_TIMEOUT_MS : Nat := 120000

/-- The `test` function of `DEFAULT_URL_REGEX` from the source: a
case-insensitive alternation of four literal domains. -/
def DEFAULT_URL_REGEX : String → Bool := fun s =>
  hintTest "chatgpt.com" s || hintTest "chat.openai.com" s ||
  hintTest "claude.ai" s || hintTest "gemini.google.com" s

/-- Transcription of `resolveEnvRegex` from the source: read the raw environment value, trim
it, treat an unset or blank value as absent, and treat a pattern the regex
compiler rejects as absent.  `compile` models `new RegExp`. -/
def resolveEnvRegex (envRaw : Option String) (compile : String → Option (String → Bool)) :
    Option (String → Bool) :=
  match envRaw with
  | none => none
  | some r => if jsTrim r = "" then none else compile (jsTrim r)

/-- Call-time options of the provider constructor. -/
structure BrowserUniversalOptions where
  cdpUrl : Option String
  urlRegex : Option (String → Bool)
  timeoutMs : Option Nat

/-- The three resolved configuration values of the provider. -/
structure ProviderConfig where
  cdpUrl : String
  urlRegex : String → Bool
  timeoutMs : Nat

/-- The `BrowserUniversalProvider` constructor from the source, over the
process environment `env` (a map from variable name to its value) and the
regex compiler.  The constructor reads exactly the CDP-URL and URL-regex
environment variables; the timeout falls back directly to its default. -/
def mkProviderConfig (options : BrowserUniversalOptions) (env : String → Option String)
    (compile : String → Option (String → Bool)) : ProviderConfig :=
  { cdpUrl := options.cdpUrl.getD ((env "OPENCLAW_BROWSER_UNIVERSAL_CDP_URL").getD DEFAULT_CDP_URL)
    urlRegex := options.urlRegex.getD
      ((resolveEnvRegex (env "OPENCLAW_BROWSER_UNIVERSAL_URL_REGEX") compile).getD
        DEFAULT_URL_REGEX)
    timeoutMs := options.timeoutMs.getD DEFAULT_TIMEOUT_MS }

/-- A DOM in which no selector matches anything. -/
def emptyDom : Dom := fun _ => []

/-- A concrete model descriptor used by the concrete invocations below. -/
def modelTest : ModelRef :=
  { api := "browser-universal", provider := "openclaw", id := "browser-universal-default" }

/-- A page on which every stage of the pipeline succeeds and the final DOM
holds one assistant block with text `"hi there"`. -/
def pageSuccess : PageM :=
  { closed := false, url := "about:blank", title := "", focus := some true
    dom := emptyDom
    inputProbe := fun _ => some true
    clickRes := Except.ok (), isTextArea := true
    fillRes := Except.ok (), fillEmptyRes := Except.ok (), typeRes := Except.ok ()
    pressRes := Except.ok (), waitNewBlockRes := Except.ok (), waitCompletionRes := Except.ok ()
    finalDom := fun s =>
      if s = "[data-message-author-role=\"assistant\"]"
      then [{ textContent := "hi there" }] else [] }

/-- A browser exposing exactly the successful page. -/
def browserSuccess : BrowserM := { pages := [pageSuccess] }

/-- A conversation whose single user turn is the string `"hello"`. -/
def helloContext : Context :=
  { messages := [{ role := "user", content := MsgContent.str "hello" }] }

/-- A fully successful invocation environment with prompt `"hello"`. -/
def envSuccess : BridgeEnv :=
  { model := modelTest, context := helloContext, aborted := false
    connectRes := Except.ok browserSuccess, urlRegex := fun _ => false, now := 0 }

/-- An environment in which the CDP connection attempt fails. -/
def connectFailEnv : BridgeEnv :=
  { model := modelTest, context := helloContext, aborted := false
    connectRes := Except.error "connect ECONNREFUSED 127.0.0.1:9222"
    urlRegex := fun _ => false, now := 0 }

/-- A conversation whose latest user turn carries only a whitespace text
part, while an older user turn carries the text `"hello"`. -/
def whitespaceLatestContext : Context :=
  { messages :=
      [{ role := "user", content := MsgContent.parts [{ type := "text", text := "hello" }] },
       { role := "user", content := MsgContent.parts [{ type := "text", text := "   " }] }] }

/-- The successful environment, but with `whitespaceLatestContext`. -/
def envWhitespaceLatest : BridgeEnv :=
  { model := modelTest, context := whitespaceLatestContext, aborted := false
    connectRes := Except.ok browserSuccess, urlRegex := fun _ => false, now := 0 }

/-- A conversation whose only user turn is whitespace string content. -/
def emptyPromptContext : Context :=
  { messages := [{ role := "user", content := MsgContent.str "   " }] }

/-- An environment whose extracted prompt is empty. -/
def envEmptyPrompt : BridgeEnv :=
  { model := modelTest, context := emptyPromptContext, aborted := false
    connectRes := Except.error "never reached", urlRegex := fun _ => false, now := 0 }

/-- A DOM whose first matching response rule has two ordered replies. -/
def domTwoReplies : Dom := fun s =>
  if s = "[data-message-author-role=\"assistant\"]"
  then [{ textContent := "first reply" }, { textContent := "second reply" }] else []

/-- A DOM whose first matching response rule has a non-empty first element
and a whitespace-only last element. -/
def domTrailingBlank : Dom := fun s =>
  if s = ".markdown" then [{ textContent := "first" }, { textContent := "   " }] else []

/-- A DOM carrying only the claude fingerprint element. -/
def domClaudeOnly : Dom := fun s =>
  if s = "[data-testid=\"chat-messages\"]" then [{ textContent := "chat" }] else []

/-- A process environment that sets only a hypothetical timeout override. -/
def envTimeoutVars : String → Option String := fun k =>
  if k = "OPENCLAW_BROWSER_UNIVERSAL_TIMEOUT_MS" then some "5000" else none

/-- Empty call-time options. -/
def optionsNone : BrowserUniversalOptions := { cdpUrl := none, urlRegex := none, timeoutMs := none }

/-- A regex compiler that rejects every pattern. -/
def compileNone : String → Option (String → Bool) := fun _ => none

/-- The successful page, with a model-label element whose text is padded. -/
def pageLabeled : PageM :=
  { closed := false, url := "about:blank", title := "", focus := some true
    dom := fun s =>
      if s = "button[data-testid*=\"model\"]"
      then [{ textContent := "  GPT-5 Pro  " }] else []
    inputProbe := fun _ => some true
    clickRes := Except.ok (), isTextArea := true
    fillRes := Except.ok (), fillEmptyRes := Except.ok (), typeRes := Except.ok ()
    pressRes := Except.ok (), waitNewBlockRes := Except.ok (), waitCompletionRes := Except.ok ()
    finalDom := fun s =>
      if s = "[data-message-author-role=\"assistant\"]"
      then [{ textContent := "hi there" }] else [] }

/-- A browser exposing exactly the labeled page. -/
def browserLabeled : BrowserM := { pages := [pageLabeled] }

/-- A fully successful invocation environment whose page shows a model label. -/
def envLabeled : BridgeEnv :=
  { model := modelTest, context := helloContext, aborted := false
    connectRes := Except.ok browserLabeled, urlRegex := fun _ => false, now := 0 }

theorem dedupAux_congr : ∀ (l : List String) {s₁ s₂ : List String},
    (∀ a, a ∈ s₁ ↔ a ∈ s₂) → dedupAux l s₁ = dedupAux l s₂ := by
  intro l
  induction l with
  | nil => intro s₁ s₂ _; rfl
  | cons x xs ih =>
    intro s₁ s₂ h
    simp only [dedupAux]
    by_cases hx : x ∈ s₁
    · rw [if_pos hx, if_pos ((h x).mp hx)]
      exact ih h
    · rw [if_neg hx, if_neg (fun hh => hx ((h x).mpr hh))]
      have hc : ∀ a, a ∈ x :: s₁ ↔ a ∈ x :: s₂ := by
        intro a
        simp only [List.mem_cons, h a]
      rw [ih hc]

theorem dedupAux_append : ∀ (a b seen : List String),
    dedupAux (a ++ b) seen = dedupAux a seen ++ dedupAux b (a ++ seen) := by
  intro a
  induction a with
  | nil =>
    intro b seen
    simp [dedupAux]
  | cons x xs ih =>
    intro b seen
    simp only [List.cons_append, List.append_eq, dedupAux]
    by_cases hx : x ∈ seen
    · rw [if_pos hx, if_pos hx, ih]
      have hmem : ∀ a2, a2 ∈ xs ++ seen ↔ a2 ∈ x :: (xs ++ seen) := by
        intro a2
        simp only [List.mem_cons, List.mem_append]
        constructor
        · intro h2
          exact Or.inr h2
        · rintro (rfl | h2)
          · exact Or.inr hx
          · exact h2
      rw [dedupAux_congr b hmem]
    · rw [if_neg hx, if_neg hx, ih]
      have hmem : ∀ a2, a2 ∈ xs ++ x :: seen ↔ a2 ∈ x :: (xs ++ seen) := by
        intro a2
        simp only [List.mem_cons, List.mem_append]
        constructor
        · rintro (h2 | rfl | h2)
          · exact Or.inr (Or.inl h2)
          · exact Or.inl rfl
          · exact Or.inr (Or.inr h2)
        · rintro (rfl | h2 | h2)
          · exact Or.inr (Or.inl rfl)
          · exact Or.inl h2
          · exact Or.inr (Or.inr h2)
      rw [dedupAux_congr b hmem]
      simp [List.cons_append]

theorem mem_of_mem_dedupAux : ∀ {l seen : List String} {a : String},
    a ∈ dedupAux l seen → a ∈ l := by
  intro l
  induction l with
  | nil =>
    intro seen a h
    simp [dedupAux] at h
  | cons x xs ih =>
    intro seen a h
    simp only [dedupAux] at h
    by_cases hx : x ∈ seen
    · rw [if_pos hx] at h
      exact List.mem_cons_of_mem x (ih h)
    · rw [if_neg hx] at h
      rcases List.mem_cons.mp h with rfl | h2
      · exact List.mem_cons_self _ _
      · exact List.mem_cons_of_mem x (ih h2)

theorem dedupAux_eq_nil : ∀ {l seen : List String},
    (∀ a ∈ l, a ∈ seen) → dedupAux l seen = [] := by
  intro l
  induction l with
  | nil => intro seen _; rfl
  | cons x xs ih =>
    intro seen h
    simp only [dedupAux]
    rw [if_pos (h x (List.mem_cons_self x xs))]
    exact ih (fun a ha => h a (List.mem_cons_of_mem x ha))

theorem dedupAux_nodup_notmem : ∀ (l seen : List String),
    (dedupAux l seen).Nodup ∧ ∀ a ∈ dedupAux l seen, a ∉ seen := by
  intro l
  induction l with
  | nil =>
    intro seen
    exact ⟨List.nodup_nil, by simp [dedupAux]⟩
  | cons x xs ih =>
    intro seen
    simp only [dedupAux]
    by_cases hx : x ∈ seen
    · rw [if_pos hx]
      exact ih seen
    · rw [if_neg hx]
      obtain ⟨hnd, hns⟩ := ih (x :: seen)
      refine ⟨List.nodup_cons.mpr ⟨fun hmem => hns x hmem (List.mem_cons_self x seen), hnd⟩, ?_⟩
      intro a ha
      rcases List.mem_cons.mp ha with rfl | h2
      · exact hx
      · exact fun hseen => hns a h2 (List.mem_cons_of_mem x hseen)

theorem dedupAux_id_of_nodup : ∀ {l seen : List String},
    l.Nodup → (∀ a ∈ l, a ∉ seen) → dedupAux l seen = l := by
  intro l
  induction l with
  | nil => intro seen _ _; rfl
  | cons x xs ih =>
    intro seen hnd hdisj
    simp only [dedupAux]
    rw [if_neg (hdisj x (List.mem_cons_self x xs))]
    congr 1
    refine ih (List.nodup_cons.mp hnd).2 ?_
    intro a ha hmem
    rcases List.mem_cons.mp hmem with rfl | h2
    · exact (List.nodup_cons.mp hnd).1 ha
    · exact hdisj a (List.mem_cons_of_mem x ha) h2

theorem dedupAux_idem (l seen : List String) :
    dedupAux (dedupAux l seen) seen = dedupAux l seen := by
  obtain ⟨hnd, hns⟩ := dedupAux_nodup_notmem l seen
  exact dedupAux_id_of_nodup hnd hns

theorem dedupAux_sublist : ∀ (l seen : List String), (dedupAux l seen).Sublist l := by
  intro l
  induction l with
  | nil =>
    intro seen
    simp [dedupAux]
  | cons x xs ih =>
    intro seen
    simp only [dedupAux]
    by_cases hx : x ∈ seen
    · rw [if_pos hx]
      exact (ih seen).cons x
    · rw [if_neg hx]
      exact (ih (x :: seen)).cons₂ x

theorem mergeSelectors_idem (base : List String) (specific : Option (List String)) :
    mergeSelectors (mergeSelectors base specific) specific = mergeSelectors base specific := by
  match specific with
  | none => rfl
  | some s =>
    by_cases hs : s = []
    · simp [mergeSelectors, hs]
    · simp only [mergeSelectors, if_neg hs]
      unfold dedupFirst
      rw [dedupAux_append s base []]
      simp only [List.append_nil]
      rw [dedupAux_append s (dedupAux s [] ++ dedupAux base s) []]
      simp only [List.append_nil]
      congr 1
      rw [dedupAux_append (dedupAux s []) (dedupAux base s) s]
      have h1 : dedupAux (dedupAux s []) s = [] :=
        dedupAux_eq_nil (fun a ha => mem_of_mem_dedupAux ha)
      rw [h1, List.nil_append]
      have h2 : ∀ a2, a2 ∈ dedupAux s [] ++ s ↔ a2 ∈ s := by
        intro a2
        simp only [List.mem_append]
        constructor
        · rintro (h | h)
          · exact mem_of_mem_dedupAux h
          · exact h
        · intro h
          exact Or.inr h
      rw [dedupAux_congr (dedupAux base s) h2, dedupAux_idem base s]

/-- Claim C4: per category, merging a profile's overrides over the generic
list yields the overrides in authored order followed by the generic rules
with exact duplicates removed keeping first occurrences; merging overrides
`[a, b]` with generic `[b, c, a]` yields `[a, b, c]`; the merge is
idempotent; and it is order-preserving (the result is a sublist of
overrides-then-generic). -/
theorem claim_C4 :
    (mergeSelectors ["b", "c", "a"] (some ["a", "b"]) = ["a", "b", "c"]) ∧
    (∀ (base : List String) (specific : Option (List String)),
      mergeSelectors (mergeSelectors base specific) specific = mergeSelectors base specific) ∧
    (∀ (base s : List String), (mergeSelectors base (some s)).Sublist (s ++ base)) ∧
    ((PLATFORM_PROFILES ++ [UNKNOWN_PROFILE]).all (fun p =>
      (resolveSelectorStrategy p).input ==
        dedupFirst ((p.selectors.input).getD [] ++ BASE_SELECTORS.input) &&
      (resolveSelectorStrategy p).stop ==
        dedupFirst ((p.selectors.stop).getD [] ++ BASE_SELECTORS.stop) &&
      (resolveSelectorStrategy p).send ==
        dedupFirst ((p.selectors.send).getD [] ++ BASE_SELECTORS.send) &&
      (resolveSelectorStrategy p).assistant ==
        dedupFirst ((p.selectors.assistant).getD [] ++ BASE_SELECTORS.assistant) &&
      (resolveSelectorStrategy p).modelLabel ==
        dedupFirst ((p.selectors.modelLabel).getD [] ++ BASE_SELECTORS.modelLabel) &&
      (resolveSelectorStrategy p).domHints ==
        dedupFirst ((p.selectors.domHints).getD [] ++ BASE_SELECTORS.domHints)) = true) := by
  refine ⟨by decide, mergeSelectors_idem, ?_, by decide⟩
  intro base s
  by_cases hs : s = []
  · subst hs
    simp [mergeSelectors]
  · simp only [mergeSelectors, if_neg hs, dedupFirst]
    exact dedupAux_sublist (s ++ base) []

theorem dropWhile_head?_not {p : Char → Bool} :
    ∀ (l : List Char) (c : Char), (l.dropWhile p).head? = some c → p c = false := by
  intro l
  induction l with
  | nil =>
    intro c h
    simp [List.dropWhile] at h
  | cons x xs ih =>
    intro c h
    rw [List.dropWhile_cons] at h
    by_cases hx : p x
    · rw [if_pos hx] at h
      exact ih c h
    · rw [if_neg hx] at h
      have hxc : x = c := by
        simpa using h
      subst hxc
      exact Bool.eq_false_iff.mpr hx

theorem dropWhile_eq_self_of_head {p : Char → Bool} {l : List Char} {c : Char}
    (h : l.head? = some c) (hc : p c = false) : l.dropWhile p = l := by
  cases l with
  | nil => simp at h
  | cons x xs =>
    have hxc : x = c := by
      simpa using h
    subst hxc
    rw [List.dropWhile_cons, if_neg (by simp [hc])]

theorem trimList_idem (l : List Char) : trimList (trimList l) = trimList l := by
  unfold trimList
  rcases hT : ((l.dropWhile Char.isWhitespace).reverse.dropWhile Char.isWhitespace).reverse
    with _ | ⟨c, rest⟩
  · simp [List.dropWhile]
  · have hprefix : (c :: rest) <+: l.dropWhile Char.isWhitespace := by
      have hsuffix : (l.dropWhile Char.isWhitespace).reverse.dropWhile Char.isWhitespace <:+
          (l.dropWhile Char.isWhitespace).reverse := List.dropWhile_suffix _
      have h2 := List.reverse_prefix.mpr hsuffix
      rw [List.reverse_reverse] at h2
      rw [← hT]
      exact h2
    obtain ⟨t, ht⟩ := hprefix
    have hheadA : (l.dropWhile Char.isWhitespace).head? = some c := by
      rw [← ht]
      rfl
    have hc : Char.isWhitespace c = false := dropWhile_head?_not l c hheadA
    have hstepA : (c :: rest).dropWhile Char.isWhitespace = c :: rest :=
      dropWhile_eq_self_of_head rfl hc
    rw [hstepA]
    have hR : (c :: rest).reverse = (l.dropWhile Char.isWhitespace).reverse.dropWhile
        Char.isWhitespace := by
      rw [← hT, List.reverse_reverse]
    rcases hRnil : (l.dropWhile Char.isWhitespace).reverse.dropWhile Char.isWhitespace
      with _ | ⟨d, rest2⟩
    · rw [hRnil] at hR
      have : (c :: rest).length = 0 := by
        rw [← List.length_reverse, hR]
        rfl
      simp at this
    · have hd : Char.isWhitespace d = false :=
        dropWhile_head?_not (l.dropWhile Char.isWhitespace).reverse d (by rw [hRnil]; rfl)
      have hstepB : (c :: rest).reverse.dropWhile Char.isWhitespace = (c :: rest).reverse := by
        refine dropWhile_eq_self_of_head ?_ hd
        rw [hR, hRnil]
        rfl
      rw [hstepB, List.reverse_reverse]

theorem jsTrim_idem (s : String) : jsTrim (jsTrim s) = jsTrim s := by
  unfold jsTrim
  have hdata : (String.mk (trimList s.data)).data = trimList s.data := rfl
  rw [hdata, trimList_idem]

/-- Claim C6: completion Phase B concludes finished exactly when the stop
indicator is not visible and (the send control is visible or no send rule
matches any element in the DOM); in particular, on a DOM where no stop rule
and no send rule matches anything, it concludes finished immediately. -/
theorem claim_C6 (dom : Dom) (stopSelectors sendSelectors : List String) :
    (waitForCompletionCheck dom stopSelectors sendSelectors = true ↔
      ((∀ s ∈ stopSelectors, domIsVisible dom s = false) ∧
       ((∃ s ∈ sendSelectors, domIsVisible dom s = true) ∨ ∀ s ∈ sendSelectors, dom s = []))) ∧
    ((∀ s ∈ stopSelectors, dom s = []) → (∀ s ∈ sendSelectors, dom s = []) →
      waitForCompletionCheck dom stopSelectors sendSelectors = true) := by
  have hiff : waitForCompletionCheck dom stopSelectors sendSelectors = true ↔
      ((∀ s ∈ stopSelectors, domIsVisible dom s = false) ∧
       ((∃ s ∈ sendSelectors, domIsVisible dom s = true) ∨ ∀ s ∈ sendSelectors, dom s = [])) := by
    unfold waitForCompletionCheck
    simp only [Bool.and_eq_true, Bool.or_eq_true, Bool.not_eq_true', List.any_eq_true,
      List.any_eq_false, Bool.not_eq_true, List.isEmpty_iff, List.isEmpty_eq_false, not_not]
  refine ⟨hiff, ?_⟩
  intro h1 h2
  rw [hiff]
  refine ⟨?_, Or.inr h2⟩
  intro s hs
  unfold domIsVisible
  rw [h1 s hs]
  rfl

theorem claim_C6_witness :
    waitForCompletionCheck emptyDom BASE_SELECTORS.stop BASE_SELECTORS.send = true :=
  (claim_C6 emptyDom BASE_SELECTORS.stop BASE_SELECTORS.send).2
    (fun _ _ => rfl) (fun _ _ => rfl)

/-- Claim C5: whenever none of the URL/title candidate profiles
fingerprint-match the page's DOM, the detector re-scans all profiles'
fingerprints in registry order and returns the first structural match, even
though the URL matched a different platform's hint. -/
theorem claim_C5 (dom : Dom) (url title : String) (urlRegex : String → Bool)
    (q : PlatformProfile)
    (hcand : ∀ p ∈ PLATFORM_PROFILES.filter (fun p =>
        p.urlHints.any (fun h => hintTest h url || hintTest h title)),
      matchesDomHints dom (p.selectors.domHints.getD []) = false)
    (hq : PLATFORM_PROFILES.find? (fun p =>
        matchesDomHints dom (p.selectors.domHints.getD [])) = some q) :
    detectPlatform dom url title urlRegex = q := by
  simp only [detectPlatform]
  have h1 : (PLATFORM_PROFILES.filter (fun p =>
      p.urlHints.any (fun h => hintTest h url || hintTest h title))).find? (fun p =>
      matchesDomHints dom (p.selectors.domHints.getD [])) = none := by
    rw [List.find?_eq_none]
    intro p hp
    rw [hcand p hp]
    simp
  rw [h1, hq]

theorem claim_C5_witness :
    hintTest "chatgpt.com" "https://chatgpt.com/c/123" = true ∧
    matchesDomHints domClaudeOnly (chatgptProfile.selectors.domHints.getD []) = false ∧
    matchesDomHints domClaudeOnly (claudeProfile.selectors.domHints.getD []) = true ∧
    detectPlatform domClaudeOnly "https://chatgpt.com/c/123" "" (fun _ => false) =
      claudeProfile :=
  ⟨by decide, by decide, by decide,
   claim_C5 domClaudeOnly "https://chatgpt.com/c/123" "" (fun _ => false) claudeProfile
     (by decide) (by decide)⟩

theorem extract_cons (dom : Dom) (sel : String) (rest : List String) :
    extractLatestAssistantText dom (sel :: rest) =
      match (dom sel).reverse.findSome? (fun e =>
          if jsTrim e.textContent = "" then none else some (jsTrim e.textContent)) with
      | some t => t
      | none => extractLatestAssistantText dom rest := by
  unfold extractLatestAssistantText
  rw [List.findSome?_cons]
  rcases h : (dom sel).reverse.findSome? (fun e =>
      if jsTrim e.textContent = "" then none else some (jsTrim e.textContent)) with _ | t
  · rw [h]
  · rw [h]

/-- Claim C7 (amended): extraction tries response rules in declared order;
for each rule it scans that rule's matches from last to first and returns
the trimmed text of the last match whose trimmed text is non-empty; a rule
all of whose matches trim to empty is skipped; the overall result is empty
exactly when every rule's every match trims to empty, in which case the
page pipeline fails with the empty-response diagnostic.  With two ordered
matches `first reply` and `second reply`, extraction returns
`second reply`. -/
theorem claim_C7 :
    (extractLatestAssistantText domTwoReplies BASE_SELECTORS.assistant = "second reply") ∧
    (∀ (dom : Dom) (sel : String) (rest : List String) (e : Elem),
      (dom sel).getLast? = some e → jsTrim e.textContent ≠ "" →
      extractLatestAssistantText dom (sel :: rest) = jsTrim e.textContent) ∧
    (∀ (dom : Dom) (sel : String) (rest : List String),
      (∀ e ∈ dom sel, jsTrim e.textContent = "") →
      extractLatestAssistantText dom (sel :: rest) = extractLatestAssistantText dom rest) ∧
    (∀ (dom : Dom) (sels : List String),
      extractLatestAssistantText dom sels = "" ↔
        ∀ s ∈ sels, ∀ e ∈ dom s, jsTrim e.textContent = "") ∧
    (∀ (urlRegex : String → Bool) (page : PageM) (sel0 : String),
      resolveInputLocator page.inputProbe (pageStrategy urlRegex page).input =
        Except.ok sel0 →
      page.clickRes = Except.ok () →
      (if page.isTextArea then page.fillRes
       else page.fillEmptyRes.bind (fun _ => page.typeRes)) = Except.ok () →
      page.pressRes = Except.ok () →
      page.waitNewBlockRes = Except.ok () →
      page.waitCompletionRes = Except.ok () →
      extractLatestAssistantText page.finalDom (pageStrategy urlRegex page).assistant = "" →
      pageAttempt urlRegex page =
        Except.error "Browser universal: no assistant response found.") := by
  refine ⟨by decide, ?_, ?_, ?_, ?_⟩
  · intro dom sel rest e hlast hne
    rw [extract_cons]
    have hrev : (dom sel).reverse.head? = some e := by
      rw [List.head?_reverse]
      exact hlast
    rcases hrl : (dom sel).reverse with _ | ⟨x, xs⟩
    · rw [hrl] at hrev
      simp at hrev
    · rw [hrl] at hrev
      have hx : x = e := by
        simpa using hrev
      subst hx
      rw [List.findSome?_cons, if_neg hne]
  · intro dom sel rest hall
    rw [extract_cons]
    have hnone : (dom sel).reverse.findSome? (fun e =>
        if jsTrim e.textContent = "" then none else some (jsTrim e.textContent)) = none := by
      rw [List.findSome?_eq_none_iff]
      intro e he
      rw [if_pos (hall e (List.mem_reverse.mp he))]
    rw [hnone]
  · intro dom sels
    induction sels with
    | nil =>
      simp [extractLatestAssistantText]
    | cons sel rest ih =>
      rw [extract_cons]
      rcases h : (dom sel).reverse.findSome? (fun e =>
          if jsTrim e.textContent = "" then none else some (jsTrim e.textContent)) with _ | t
      · rw [h, ih]
        constructor
        · intro hr s hs e he
          rcases List.mem_cons.mp hs with rfl | hs2
          · have hnone := (List.findSome?_eq_none_iff.mp h) e (List.mem_reverse.mpr he)
            by_cases hje : jsTrim e.textContent = ""
            · exact hje
            · rw [if_neg hje] at hnone
              simp at hnone
          · exact hr s hs2 e he
        · intro hall s hs e he
          exact hall s (List.mem_cons_of_mem sel hs) e he
      · rw [h]
        obtain ⟨e, he, hge⟩ := List.exists_of_findSome?_eq_some h
        by_cases hje : jsTrim e.textContent = ""
        · rw [if_pos hje] at hge
          simp at hge
        · rw [if_neg hje] at hge
          have ht : jsTrim e.textContent = t := by
            simpa using hge
          constructor
          · intro h0
            exact absurd (ht.trans h0) hje
          · intro hall
            exact absurd (hall sel (List.mem_cons_self _ _) e (List.mem_reverse.mp he)) hje
  · intro urlRegex page sel0 h1 h2 h3 h4 h5 h6 hext
    simp only [pageAttempt]
    rw [h1, h2, h3, h4, h5, h6]
    simp only [Except.bind]
    rw [if_pos hext]

theorem claim_C7_counterexample :
    (domTrailingBlank "[data-message-author-role=\"assistant\"]" = []) ∧
    (domTrailingBlank ".markdown" =
      [{ textContent := "first" }, { textContent := "   " }]) ∧
    ((domTrailingBlank ".markdown").getLast? = some { textContent := "   " }) ∧
    jsTrim "   " = "" ∧
    extractLatestAssistantText domTrailingBlank BASE_SELECTORS.assistant = "first" ∧
    "first" ≠ "" :=
  ⟨rfl, rfl, rfl, by decide, by decide, by decide⟩

theorem claim_C7_witness :
    extractLatestAssistantText domTwoReplies
      ("[data-message-author-role=\"assistant\"]" :: [".markdown", ".prose", "article"]) =
      jsTrim "second reply" :=
  claim_C7.2.1 domTwoReplies "[data-message-author-role=\"assistant\"]"
    [".markdown", ".prose", "article"] { textContent := "second reply" } rfl (by decide)

theorem claim_C8_counterexample :
    envTimeoutVars "OPENCLAW_BROWSER_UNIVERSAL_TIMEOUT_MS" = some "5000" ∧
    (mkProviderConfig optionsNone envTimeoutVars compileNone).timeoutMs = 120000 ∧
    (120000 : Nat) ≠ 5000 :=
  ⟨rfl, rfl, by decide⟩

/-- Claim C8 (amended): the endpoint URL and the URL pattern resolve with
precedence call-time option, else named environment override, else default
(endpoint `http://127.0.0.1:9222`; an unset, blank, or unparseable
environment pattern is treated as absent); the response-wait timeout
resolves call-time option else the built-in 120 s default, with no
environment override. -/
theorem claim_C8 :
    (∀ (options : BrowserUniversalOptions) (env : String → Option String)
        (compile : String → Option (String → Bool)) (u : String),
      options.cdpUrl = some u → (mkProviderConfig options env compile).cdpUrl = u) ∧
    (∀ (options : BrowserUniversalOptions) (env : String → Option String)
        (compile : String → Option (String → Bool)),
      options.cdpUrl = none →
      (mkProviderConfig options env compile).cdpUrl =
        (env "OPENCLAW_BROWSER_UNIVERSAL_CDP_URL").getD DEFAULT_CDP_URL) ∧
    (∀ (options : BrowserUniversalOptions) (env : String → Option String)
        (compile : String → Option (String → Bool)) (r : String → Bool),
      options.urlRegex = some r → (mkProviderConfig options env compile).urlRegex = r) ∧
    (∀ (options : BrowserUniversalOptions) (env : String → Option String)
        (compile : String → Option (String → Bool)),
      options.urlRegex = none →
      (mkProviderConfig options env compile).urlRegex =
        (resolveEnvRegex (env "OPENCLAW_BROWSER_UNIVERSAL_URL_REGEX") compile).getD
          DEFAULT_URL_REGEX) ∧
    (∀ (options : BrowserUniversalOptions) (env : String → Option String)
        (compile : String → Option (String → Bool)) (raw : String),
      options.urlRegex = none →
      env "OPENCLAW_BROWSER_UNIVERSAL_URL_REGEX" = some raw → compile (jsTrim raw) = none →
      (mkProviderConfig options env compile).urlRegex = DEFAULT_URL_REGEX) ∧
    (∀ (options : BrowserUniversalOptions) (env : String → Option String)
        (compile : String → Option (String → Bool)) (raw : String),
      options.urlRegex = none →
      env "OPENCLAW_BROWSER_UNIVERSAL_URL_REGEX" = some raw → jsTrim raw = "" →
      (mkProviderConfig options env compile).urlRegex = DEFAULT_URL_REGEX) ∧
    (∀ (options : BrowserUniversalOptions) (env : String → Option String)
        (compile : String → Option (String → Bool)),
      (mkProviderConfig options env compile).timeoutMs = options.timeoutMs.getD 120000) := by
  refine ⟨?_, ?_, ?_, ?_, ?_, ?_, ?_⟩
  · intro options env compile u h
    simp [mkProviderConfig, h]
  · intro options env compile h
    simp [mkProviderConfig, h]
  · intro options env compile r h
    simp [mkProviderConfig, h]
  · intro options env compile h
    simp [mkProviderConfig, h]
  · intro options env compile raw h1 h2 h3
    simp [mkProviderConfig, resolveEnvRegex, h1, h2, h3]
  · intro options env compile raw h1 h2 h3
    simp [mkProviderConfig, resolveEnvRegex, h1, h2, h3]
  · intro options env compile
    rfl

theorem claim_C8_witness :
    (mkProviderConfig
        { cdpUrl := some "http://localhost:9333", urlRegex := none, timeoutMs := none }
        envTimeoutVars compileNone).cdpUrl = "http://localhost:9333" ∧
    (mkProviderConfig optionsNone
        (fun k => if k = "OPENCLAW_BROWSER_UNIVERSAL_URL_REGEX" then some "[" else none)
        compileNone).urlRegex = DEFAULT_URL_REGEX :=
  ⟨claim_C8.1 { cdpUrl := some "http://localhost:9333", urlRegex := none, timeoutMs := none }
      envTimeoutVars compileNone "http://localhost:9333" rfl,
   claim_C8.2.2.2.2.1 optionsNone
      (fun k => if k = "OPENCLAW_BROWSER_UNIVERSAL_URL_REGEX" then some "[" else none)
      compileNone "[" rfl rfl rfl⟩

theorem pageAttempt_ok_elim {urlRegex : String → Bool} {page : PageM} {t : String}
    {label : Option String} (h : pageAttempt urlRegex page = Except.ok (t, label)) :
    t ≠ "" ∧
    label = resolveModelLabel page.dom (pageStrategy urlRegex page).modelLabel ∧
    t = extractLatestAssistantText page.finalDom (pageStrategy urlRegex page).assistant := by
  simp only [pageAttempt] at h
  rcases h1 : resolveInputLocator page.inputProbe (pageStrategy urlRegex page).input
    with msg | sel
  · rw [h1] at h
    simp [Except.bind] at h
  · rw [h1] at h
    simp only [Except.bind] at h
    rcases h2 : page.clickRes with msg | u
    · rw [h2] at h
      simp [Except.bind] at h
    · rw [h2] at h
      simp only [Except.bind] at h
      rcases h3 : (if page.isTextArea then page.fillRes
          else page.fillEmptyRes.bind (fun _ => page.typeRes)) with msg | u2
      · simp only [Except.bind] at h3
        rw [h3] at h
        simp [Except.bind] at h
      · simp only [Except.bind] at h3
        rw [h3] at h
        simp only [Except.bind] at h
        rcases h4 : page.pressRes with msg | u3
        · rw [h4] at h
          simp [Except.bind] at h
        · rw [h4] at h
          simp only [Except.bind] at h
          rcases h5 : page.waitNewBlockRes with msg | u4
          · rw [h5] at h
            simp [Except.bind] at h
          · rw [h5] at h
            simp only [Except.bind] at h
            rcases h6 : page.waitCompletionRes with msg | u5
            · rw [h6] at h
              simp [Except.bind] at h
            · rw [h6] at h
              simp only [Except.bind] at h
              by_cases he : extractLatestAssistantText page.finalDom
                  (pageStrategy urlRegex page).assistant = ""
              · rw [if_pos he] at h
                simp at h
              · rw [if_neg he] at h
                simp only [Except.ok.injEq, Prod.mk.injEq] at h
                exact ⟨h.1 ▸ he, h.2.symm, h.1.symm⟩

theorem innerAttempt_ok_elim {urlRegex : String → Bool} {b : BrowserM}
    {v : String × Option String} (h : innerAttempt urlRegex b = Except.ok v) :
    ∃ page, selectPage urlRegex b.pages = some page ∧ pageAttempt urlRegex page = Except.ok v := by
  unfold innerAttempt at h
  by_cases hnil : b.pages.isEmpty
  · rw [if_pos hnil] at h
    simp at h
  · rw [if_neg hnil] at h
    rcases hs : selectPage urlRegex b.pages with _ | page
    · rw [hs] at h
      simp at h
    · rw [hs] at h
      exact ⟨page, rfl, h⟩

theorem runBridge_success (env : BridgeEnv) (b : BrowserM) (t : String)
    (label : Option String) (hp : extractLatestUserPrompt env.context ≠ "")
    (ha : env.aborted = false) (hc : env.connectRes = Except.ok b)
    (hi : innerAttempt env.urlRegex b = Except.ok (t, label)) :
    runBridge env =
      { events := successEvents t (buildAssistantMessage env.now t env.model label "stop")
        endedWith := some (buildAssistantMessage env.now t env.model label "stop")
        effects := [BridgeEffect.connect, BridgeEffect.close] } := by
  simp [runBridge, hp, ha, hc, hi]

/-- Claim C1: every invocation whose pipeline reaches a non-empty scraped
reply emits exactly `start`, `content-start`, one `content-delta` carrying
the entire scraped text, `content-end` with that text, and `done` with
`stopReason` `stop` and the scraped text as the message content; nothing
else is emitted and the stream is then terminated with that message. -/
theorem claim_C1 (env : BridgeEnv) (b : BrowserM) (t : String) (label : Option String)
    (hp : extractLatestUserPrompt env.context ≠ "")
    (ha : env.aborted = false)
    (hc : env.connectRes = Except.ok b)
    (hi : innerAttempt env.urlRegex b = Except.ok (t, label)) :
    runBridge env =
      { events := successEvents t (buildAssistantMessage env.now t env.model label "stop")
        endedWith := some (buildAssistantMessage env.now t env.model label "stop")
        effects := [BridgeEffect.connect, BridgeEffect.close] } ∧
    t ≠ "" ∧
    (buildAssistantMessage env.now t env.model label "stop").content =
      [{ type := "text", text := t }] ∧
    (buildAssistantMessage env.now t env.model label "stop").stopReason = "stop" ∧
    ∃ page, selectPage env.urlRegex b.pages = some page ∧
      t = extractLatestAssistantText page.finalDom (pageStrategy env.urlRegex page).assistant := by
  obtain ⟨page, hsel, hpa⟩ := innerAttempt_ok_elim hi
  obtain ⟨hne, _, hext⟩ := pageAttempt_ok_elim hpa
  exact ⟨runBridge_success env b t label hp ha hc hi, hne, rfl, rfl, page, hsel, hext⟩

theorem claim_C1_witness :
    runBridge envSuccess =
      { events := successEvents "hi there"
          (buildAssistantMessage 0 "hi there" modelTest none "stop")
        endedWith := some (buildAssistantMessage 0 "hi there" modelTest none "stop")
        effects := [BridgeEffect.connect, BridgeEffect.close] } ∧
    ("hi there" : String) ≠ "" :=
  ⟨(claim_C1 envSuccess browserSuccess "hi there" none (by decide) rfl rfl rfl).1,
   (claim_C1 envSuccess browserSuccess "hi there" none (by decide) rfl rfl rfl).2.1⟩

/-- Claim C2 (amended): whenever the extracted prompt is empty — the
backwards scan returns the trimmed string content of the first user turn
carrying string content, or the first user turn whose joined text parts
trim non-empty, and otherwise yields the empty prompt — the bridge emits
exactly one error event and never opens the CDP channel.  (A latest user
turn whose part-based content is all whitespace does not short-circuit
when an older user turn still yields text.) -/
theorem claim_C2 (env : BridgeEnv) (hp : extractLatestUserPrompt env.context = "") :
    runBridge env =
      { events := [StreamEvent.error "error" (buildAssistantMessage env.now
          "Browser universal: empty prompt." env.model none "error")]
        endedWith := some (buildAssistantMessage env.now
          "Browser universal: empty prompt." env.model none "error")
        effects := [] } := by
  simp [runBridge, hp]

theorem claim_C2_counterexample :
    whitespaceLatestContext.messages.getLast? =
      some { role := "user", content := MsgContent.parts [{ type := "text", text := "   " }] } ∧
    jsTrim "   " = "" ∧
    extractLatestUserPrompt whitespaceLatestContext = "hello" ∧
    (runBridge envWhitespaceLatest).effects = [BridgeEffect.connect, BridgeEffect.close] ∧
    (runBridge envWhitespaceLatest).events =
      successEvents "hi there" (buildAssistantMessage 0 "hi there" modelTest none "stop") :=
  ⟨rfl, by decide, by decide, rfl, rfl⟩

theorem claim_C2_witness :
    extractLatestUserPrompt emptyPromptContext = "" ∧
    runBridge envEmptyPrompt =
      { events := [StreamEvent.error "error" (buildAssistantMessage 0
          "Browser universal: empty prompt." modelTest none "error")]
        endedWith := some (buildAssistantMessage 0
          "Browser universal: empty prompt." modelTest none "error")
        effects := [] } :=
  ⟨by decide, claim_C2 envEmptyPrompt (by decide)⟩

/-- Claim C3: every pipeline failure — the abort check, the connection
attempt, or any step of the inner pipeline (page enumeration, tab
selection, input location, the wait phases, empty extraction) — is caught
at the outermost boundary and converted into a single terminal error event
whose message text carries the diagnostic's message and whose stop reason
is `error`; no success events accompany it and the stream is terminated. -/
theorem claim_C3 (env : BridgeEnv) (msg : String)
    (hp : extractLatestUserPrompt env.context ≠ "")
    (h : (env.aborted = true ∧ msg = "Browser universal run aborted") ∨
         (env.aborted = false ∧ env.connectRes = Except.error msg) ∨
         (env.aborted = false ∧ ∃ b, env.connectRes = Except.ok b ∧
            innerAttempt env.urlRegex b = Except.error msg)) :
    (runBridge env).events = [StreamEvent.error "error"
      (buildAssistantMessage env.now ("Browser universal error: " ++ msg) env.model none
        "error")] ∧
    (runBridge env).endedWith = some (buildAssistantMessage env.now
      ("Browser universal error: " ++ msg) env.model none "error") ∧
    (buildAssistantMessage env.now ("Browser universal error: " ++ msg) env.model none
      "error").content =
      [{ type := "text", text := "Browser universal error: " ++ msg }] ∧
    (buildAssistantMessage env.now ("Browser universal error: " ++ msg) env.model none
      "error").stopReason = "error" := by
  rcases h with ⟨ha, hmsg⟩ | ⟨ha, hc⟩ | ⟨ha, b, hc, hi⟩
  · subst hmsg
    refine ⟨?_, ?_, rfl, rfl⟩ <;> simp [runBridge, hp, ha]
  · refine ⟨?_, ?_, rfl, rfl⟩ <;> simp [runBridge, hp, ha, hc]
  · refine ⟨?_, ?_, rfl, rfl⟩ <;> simp [runBridge, hp, ha, hc, hi]

theorem claim_C3_witness :
    (runBridge connectFailEnv).events = [StreamEvent.error "error"
      (buildAssistantMessage 0
        ("Browser universal error: " ++ "connect ECONNREFUSED 127.0.0.1:9222")
        modelTest none "error")] :=
  (claim_C3 connectFailEnv "connect ECONNREFUSED 127.0.0.1:9222" (by decide)
    (Or.inr (Or.inl ⟨rfl, rfl⟩))).1

theorem claim_C9_counterexample :
    (runBridge connectFailEnv).effects = [BridgeEffect.connect] ∧
    BridgeEffect.close ∉ (runBridge connectFailEnv).effects ∧
    (runBridge connectFailEnv).events = [StreamEvent.error "error"
      (buildAssistantMessage 0
        "Browser universal error: connect ECONNREFUSED 127.0.0.1:9222"
        modelTest none "error")] ∧
    (buildAssistantMessage 0
      "Browser universal error: connect ECONNREFUSED 127.0.0.1:9222"
      modelTest none "error").stopReason = "error" :=
  ⟨rfl, by decide, rfl, rfl⟩

/-- Claim C9 (amended): once the CDP channel has been acquired, it is
released on every exit path of the pipeline, success or failure.  On a
connection failure the output is exactly one error terminal event with
stop reason `error`, and no channel handle was ever produced, so none is
leaked; release is not invoked because connect yielded no handle. -/
theorem claim_C9 :
    (∀ (env : BridgeEnv) (b : BrowserM),
      extractLatestUserPrompt env.context ≠ "" → env.aborted = false →
      env.connectRes = Except.ok b →
      (runBridge env).effects = [BridgeEffect.connect, BridgeEffect.close]) ∧
    (∀ (env : BridgeEnv) (msg : String),
      extractLatestUserPrompt env.context ≠ "" → env.aborted = false →
      env.connectRes = Except.error msg →
      (runBridge env).effects = [BridgeEffect.connect] ∧
      (runBridge env).events = [StreamEvent.error "error"
        (buildAssistantMessage env.now ("Browser universal error: " ++ msg) env.model none
          "error")] ∧
      (runBridge env).endedWith = some (buildAssistantMessage env.now
        ("Browser universal error: " ++ msg) env.model none "error") ∧
      (buildAssistantMessage env.now ("Browser universal error: " ++ msg) env.model none
        "error").stopReason = "error") := by
  constructor
  · intro env b hp ha hc
    rcases hi : innerAttempt env.urlRegex b with msg | v
    · simp [runBridge, hp, ha, hc, hi]
    · obtain ⟨t, label⟩ := v
      simp [runBridge, hp, ha, hc, hi]
  · intro env msg hp ha hc
    refine ⟨?_, ?_, ?_, rfl⟩ <;> simp [runBridge, hp, ha, hc]

theorem claim_C9_witness :
    (runBridge envSuccess).effects = [BridgeEffect.connect, BridgeEffect.close] ∧
    (runBridge connectFailEnv).effects = [BridgeEffect.connect] :=
  ⟨claim_C9.1 envSuccess browserSuccess (by decide) rfl rfl,
   (claim_C9.2 connectFailEnv "connect ECONNREFUSED 127.0.0.1:9222" (by decide) rfl rfl).1⟩

theorem resolveModelLabel_some {dom : Dom} : ∀ {sels : List String} {l : String},
    resolveModelLabel dom sels = some l →
    l ≠ "" ∧ ∃ s ∈ sels, ∃ el, (dom s).head? = some el ∧ l = jsTrim el.textContent := by
  intro sels
  induction sels with
  | nil =>
    intro l h
    simp [resolveModelLabel] at h
  | cons s rest ih =>
    intro l h
    simp only [resolveModelLabel] at h ih
    rw [List.findSome?_cons] at h
    rcases hh : (dom s).head? with _ | el
    · rw [hh] at h
      obtain ⟨hne, s2, hs2, el2, hel2, hl2⟩ := ih h
      exact ⟨hne, s2, List.mem_cons_of_mem s hs2, el2, hel2, hl2⟩
    · by_cases hje : jsTrim el.textContent = ""
      · have hprobe : (match (dom s).head? with
            | none => none
            | some el => if jsTrim el.textContent = "" then none
                else some (jsTrim el.textContent)) = (none : Option String) := by
          rw [hh]
          show (if jsTrim el.textContent = "" then none
            else some (jsTrim el.textContent) : Option String) = none
          rw [if_pos hje]
        rw [hprobe] at h
        obtain ⟨hne, s2, hs2, el2, hel2, hl2⟩ := ih h
        exact ⟨hne, s2, List.mem_cons_of_mem s hs2, el2, hel2, hl2⟩
      · have hprobe : (match (dom s).head? with
            | none => none
            | some el => if jsTrim el.textContent = "" then none
                else some (jsTrim el.textContent)) = some (jsTrim el.textContent) := by
          rw [hh]
          show (if jsTrim el.textContent = "" then none
            else some (jsTrim el.textContent) : Option String) = some (jsTrim el.textContent)
          rw [if_neg hje]
        rw [hprobe] at h
        have hl : jsTrim el.textContent = l := by
          have h2 : some (jsTrim el.textContent) = some l := h
          injection h2
        exact ⟨hl ▸ hje, s, List.mem_cons_self s rest, el, hh, hl.symm⟩

/-- Claim C10: a successful invocation's message carries the trimmed text
of the model label scraped from the pre-injection DOM (first modelLabel
rule whose first matching element has non-empty trimmed text) whenever one
was found, and the configured model id otherwise; every error event's
message carries the configured model id. -/
theorem claim_C10 :
    (∀ (env : BridgeEnv) (b : BrowserM) (t : String) (label : Option String),
      extractLatestUserPrompt env.context ≠ "" → env.aborted = false →
      env.connectRes = Except.ok b → innerAttempt env.urlRegex b = Except.ok (t, label) →
      ∃ page, selectPage env.urlRegex b.pages = some page ∧
        label = resolveModelLabel page.dom (pageStrategy env.urlRegex page).modelLabel ∧
        (runBridge env).endedWith =
          some (buildAssistantMessage env.now t env.model label "stop") ∧
        (buildAssistantMessage env.now t env.model label "stop").model =
          (match label with
           | some l => l
           | none => env.model.id) ∧
        (∀ l, label = some l →
          l ≠ "" ∧ ∃ s ∈ (pageStrategy env.urlRegex page).modelLabel,
            ∃ el, (page.dom s).head? = some el ∧ l = jsTrim el.textContent)) ∧
    (∀ (env : BridgeEnv) (r : String) (e : AssistantMessage),
      StreamEvent.error r e ∈ (runBridge env).events → e.model = env.model.id) := by
  constructor
  · intro env b t label hp ha hc hi
    obtain ⟨page, hsel, hpa⟩ := innerAttempt_ok_elim hi
    obtain ⟨hne, hlab, hext⟩ := pageAttempt_ok_elim hpa
    refine ⟨page, hsel, hlab, ?_, ?_, ?_⟩
    · rw [runBridge_success env b t label hp ha hc hi]
    · rcases label with _ | l
      · rfl
      · have hsome : resolveModelLabel page.dom (pageStrategy env.urlRegex page).modelLabel
            = some l := hlab.symm
        obtain ⟨hlne, s, hs, el, hel, hraw⟩ := resolveModelLabel_some hsome
        have hidem : jsTrim l = l := by
          rw [hraw]
          exact jsTrim_idem _
        show (if jsTrim l = "" then env.model.id else jsTrim l) = l
        rw [hidem, if_neg hlne]
    · intro l hl
      have hsome : resolveModelLabel page.dom (pageStrategy env.urlRegex page).modelLabel
          = some l := by
        rw [← hlab, hl]
      exact resolveModelLabel_some hsome
  · intro env r e h
    by_cases hp : extractLatestUserPrompt env.context = ""
    · simp [runBridge, hp] at h
      rw [h.2]
      rfl
    · by_cases ha : env.aborted = true
      · simp [runBridge, hp, ha] at h
        rw [h.2]
        rfl
      · rcases hc : env.connectRes with msg | b
        · simp [runBridge, hp, ha, hc] at h
          rw [h.2]
          rfl
        · rcases hi : innerAttempt env.urlRegex b with msg | v
          · simp [runBridge, hp, ha, hc, hi] at h
            rw [h.2]
            rfl
          · obtain ⟨t, label⟩ := v
            simp [runBridge, hp, ha, hc, hi, successEvents] at h

theorem claim_C10_witness :
    ∃ page, selectPage envLabeled.urlRegex browserLabeled.pages = some page ∧
      some "GPT-5 Pro" =
        resolveModelLabel page.dom (pageStrategy envLabeled.urlRegex page).modelLabel ∧
      (runBridge envLabeled).endedWith =
        some (buildAssistantMessage envLabeled.now "hi there" envLabeled.model
          (some "GPT-5 Pro") "stop") ∧
      (buildAssistantMessage envLabeled.now "hi there" envLabeled.model
        (some "GPT-5 Pro") "stop").model =
        (match (some "GPT-5 Pro" : Option String) with
         | some l => l
         | none => envLabeled.model.id) ∧
      (∀ l, (some "GPT-5 Pro" : Option String) = some l →
        l ≠ "" ∧ ∃ s ∈ (pageStrategy envLabeled.urlRegex page).modelLabel,
          ∃ el, (page.dom s).head? = some el ∧ l = jsTrim el.textContent) :=
  claim_C10.1 envLabeled browserLabeled "hi there" (some "GPT-5 Pro") (by decide) rfl rfl rfl
